import Mathlib

/-!
Shallow embedding of `src/main.py` (and the configuration defaults of
`src/config.py`): a two-provider LLM adapter with rate-limit failover and a
single-round function-calling agent.  Python exceptions are modelled as
`String` messages carried in `Except String`; the network transport of each
provider is modelled as an outcome oracle supplied to the adapter call.
Python string primitives (`in`, `split`, `strip`, `lower`) and `json.loads`
are modelled on explicit character lists below.
-/

namespace AgentDev

/-- Characters stripped by Python `str.strip()` (ASCII fragment). -/
def isPySpace (c : Char) : Bool :=
  c = ' ' || c = '\t' || c = '\n' || c = '\r' || c = '\x0b' || c = '\x0c'

/-- Python `str.strip()`: drop leading and trailing whitespace. -/
def pyStrip (s : List Char) : List Char :=
  ((s.dropWhile isPySpace).reverse.dropWhile isPySpace).reverse

/-- Remainder of `s` after the first occurrence of `sep` (Python substring
search); `none` when `sep` does not occur.  `(afterFirst sep s).isSome` is
Python `sep in s`. -/
def afterFirst (sep : List Char) : List Char → Option (List Char)
  | [] => none
  | c :: rest =>
    if sep.isPrefixOf (c :: rest) then some (List.drop sep.length (c :: rest))
    else afterFirst sep rest

/-- Longest prefix of `s` before the first occurrence of `sep`; the whole
list when `sep` does not occur. -/
def beforeFirst (sep : List Char) : List Char → List Char
  | [] => []
  | c :: rest =>
    if sep.isPrefixOf (c :: rest) then []
    else c :: beforeFirst sep rest

/-- Python `str.split(sep)` for a nonempty separator, with explicit fuel
(one unit per scanned position suffices since each recursive call drops at
least one character). -/
def pySplitGo (sep : List Char) : Nat → List Char → List (List Char)
  | 0, s => [s]
  | f + 1, s =>
    match s with
    | [] => [[]]
    | c :: rest =>
      if sep.isPrefixOf (c :: rest) then
        [] :: pySplitGo sep f (List.drop sep.length (c :: rest))
      else
        match pySplitGo sep f rest with
        | [] => [c :: rest]
        | h :: t => (c :: h) :: t

/-- Python `str.split(sep)` (all occurrences, no maxsplit). -/
def pySplit (sep s : List Char) : List (List Char) :=
  pySplitGo sep s.length s

/-- Python `str.lower()` (ASCII fragment, matching `Char.toLower`). -/
def pyLower (s : List Char) : List Char := s.map Char.toLower

/-- Values produced by `json.loads`.  Numbers keep their raw matched text
(their numeric value is never consumed by the program, only their
truthiness). -/
inductive JValue where
  | null : JValue
  | bool : Bool → JValue
  | num : String → JValue
  | str : String → JValue
  | arr : List JValue → JValue
  | obj : List (String × JValue) → JValue
deriving Repr, Inhabited, BEq

/-- Insertion into a Python dict built during object parsing: an existing
key is updated in place, a new key is appended (duplicate keys in a JSON
object keep the last value, at the first key's position). -/
def objInsert (fields : List (String × JValue)) (k : String) (v : JValue) :
    List (String × JValue) :=
  if fields.any (fun p => p.1 = k) then
    fields.map (fun p => if p.1 = k then (k, v) else p)
  else fields ++ [(k, v)]

/-- Python `dict.get`: value at a key of a (duplicate-free) field list. -/
def pyGet (fields : List (String × JValue)) (key : String) : Option JValue :=
  (fields.find? (fun p => p.1 = key)).map Prod.snd

/-- JSON whitespace accepted between tokens by `json.loads`. -/
def isJsonWs (c : Char) : Bool :=
  c = ' ' || c = '\t' || c = '\n' || c = '\r'

/-- Drop leading JSON whitespace. -/
def skipWs : List Char → List Char
  | [] => []
  | c :: rest => if isJsonWs c then skipWs rest else c :: rest

/-- Value of one hexadecimal digit. -/
def hexVal (c : Char) : Option Nat :=
  if '0' ≤ c ∧ c ≤ '9' then some (c.toNat - '0'.toNat)
  else if 'a' ≤ c ∧ c ≤ 'f' then some (c.toNat - 'a'.toNat + 10)
  else if 'A' ≤ c ∧ c ≤ 'F' then some (c.toNat - 'A'.toNat + 10)
  else none

/-- Body of a JSON string, after the opening quote: decoded characters and
the remaining input.  Unescaped control characters are rejected, as in
strict-mode `json.loads` (surrogate-pair recombination is simplified to
per-escape decoding). -/
def parseStringBody : Nat → List Char → Option (List Char × List Char)
  | 0, _ => none
  | f + 1, s =>
    match s with
    | [] => none
    | '"' :: rest => some ([], rest)
    | '\\' :: rest =>
      match rest with
      | '"' :: r => (parseStringBody f r).map (fun p => ('"' :: p.1, p.2))
      | '\\' :: r => (parseStringBody f r).map (fun p => ('\\' :: p.1, p.2))
      | '/' :: r => (parseStringBody f r).map (fun p => ('/' :: p.1, p.2))
      | 'b' :: r => (parseStringBody f r).map (fun p => ('\x08' :: p.1, p.2))
      | 'f' :: r => (parseStringBody f r).map (fun p => ('\x0c' :: p.1, p.2))
      | 'n' :: r => (parseStringBody f r).map (fun p => ('\n' :: p.1, p.2))
      | 'r' :: r => (parseStringBody f r).map (fun p => ('\r' :: p.1, p.2))
      | 't' :: r => (parseStringBody f r).map (fun p => ('\t' :: p.1, p.2))
      | 'u' :: h1 :: h2 :: h3 :: h4 :: r =>
        match hexVal h1, hexVal h2, hexVal h3, hexVal h4 with
        | some a, some b, some c, some d =>
          (parseStringBody f r).map
            (fun p => (Char.ofNat (((a * 16 + b) * 16 + c) * 16 + d) :: p.1, p.2))
        | _, _, _, _ => none
      | _ => none
    | c :: rest =>
      if c.toNat < 32 then none
      else (parseStringBody f rest).map (fun p => (c :: p.1, p.2))

/-- Optional fraction part of a JSON number (a dot must be followed by at
least one digit). -/
def parseFrac (s : List Char) : Option (List Char × List Char) :=
  match s with
  | '.' :: r =>
    match r.span Char.isDigit with
    | ([], _) => none
    | (ds, rest) => some ('.' :: ds, rest)
  | _ => some ([], s)

/-- Optional exponent part of a JSON number. -/
def parseExp (s : List Char) : Option (List Char × List Char) :=
  match s with
  | [] => some ([], [])
  | c :: r =>
    if c = 'e' ∨ c = 'E' then
      let signed := match r with
        | '+' :: rr => (['+'], rr)
        | '-' :: rr => (['-'], rr)
        | _ => (([] : List Char), r)
      match signed.2.span Char.isDigit with
      | ([], _) => none
      | (ds, rest) => some (c :: signed.1 ++ ds, rest)
    else some ([], c :: r)

/-- JSON number token: raw matched text and the remaining input.  A leading
zero may not be followed by further integer digits, as in `json.loads`. -/
def parseNumber (s : List Char) : Option (List Char × List Char) :=
  let signed := match s with
    | '-' :: r => ((['-'] : List Char), r)
    | _ => (([] : List Char), s)
  match signed.2 with
  | '0' :: r => do
    let fr ← parseFrac r
    let ex ← parseExp fr.2
    some (signed.1 ++ '0' :: (fr.1 ++ ex.1), ex.2)
  | c :: r =>
    if c.isDigit then do
      let body := r.span Char.isDigit
      let fr ← parseFrac body.2
      let ex ← parseExp fr.2
      some (signed.1 ++ c :: body.1 ++ fr.1 ++ ex.1, ex.2)
    else none
  | [] => none

mutual

/-- One JSON value (with leading whitespace) and the remaining input,
following the grammar accepted by Python `json.loads` with its default
settings (including the `NaN` / `Infinity` constants). -/
def parseJValue : Nat → List Char → Option (JValue × List Char)
  | 0, _ => none
  | f + 1, s0 =>
    let s := skipWs s0
    match s with
    | [] => none
    | c :: rest =>
      if c = '\x7b' then
        match skipWs rest with
        | '\x7d' :: r => some (JValue.obj [], r)
        | s1 => parseObjBody f s1 []
      else if c = '[' then
        match skipWs rest with
        | ']' :: r => some (JValue.arr [], r)
        | s1 => parseArrBody f s1 []
      else if c = '"' then
        (parseStringBody (rest.length + 1) rest).map
          (fun p => (JValue.str (String.mk p.1), p.2))
      else if ['t', 'r', 'u', 'e'].isPrefixOf s then some (JValue.bool true, s.drop 4)
      else if ['f', 'a', 'l', 's', 'e'].isPrefixOf s then some (JValue.bool false, s.drop 5)
      else if ['n', 'u', 'l', 'l'].isPrefixOf s then some (JValue.null, s.drop 4)
      else if ['N', 'a', 'N'].isPrefixOf s then some (JValue.num "NaN", s.drop 3)
      else if ['I', 'n', 'f', 'i', 'n', 'i', 't', 'y'].isPrefixOf s then
        some (JValue.num "Infinity", s.drop 8)
      else if ['-', 'I', 'n', 'f', 'i', 'n', 'i', 't', 'y'].isPrefixOf s then
        some (JValue.num "-Infinity", s.drop 9)
      else (parseNumber s).map (fun p => (JValue.num (String.mk p.1), p.2))

/-- Members of a JSON object, positioned at a key (after `\x7b` or a comma,
whitespace skipped). -/
def parseObjBody : Nat → List Char → List (String × JValue) →
    Option (JValue × List Char)
  | 0, _, _ => none
  | f + 1, s, acc =>
    match s with
    | '"' :: rest =>
      match parseStringBody (rest.length + 1) rest with
      | none => none
      | some (k, r1) =>
        match skipWs r1 with
        | ':' :: r2 =>
          match parseJValue f r2 with
          | none => none
          | some (v, r3) =>
            let acc1 := objInsert acc (String.mk k) v
            match skipWs r3 with
            | ',' :: r4 => parseObjBody f (skipWs r4) acc1
            | '\x7d' :: r4 => some (JValue.obj acc1, r4)
            | _ => none
        | _ => none
    | _ => none

/-- Elements of a JSON array, positioned at a value. -/
def parseArrBody : Nat → List Char → List JValue → Option (JValue × List Char)
  | 0, _, _ => none
  | f + 1, s, acc =>
    match parseJValue f s with
    | none => none
    | some (v, r1) =>
      match skipWs r1 with
      | ',' :: r2 => parseArrBody f r2 (acc ++ [v])
      | ']' :: r2 => some (JValue.arr (acc ++ [v]), r2)
      | _ => none

end

/-- Python `json.loads` on a character list: a single JSON document with
nothing but whitespace after it; `none` models a raised `JSONDecodeError`. -/
def jsonLoads (s : List Char) : Option JValue :=
  match parseJValue (8 * (s.length + 1)) s with
  | some (v, rest) => if (skipWs rest).isEmpty then some v else none
  | none => none

/-- Escaping of one character inside a JSON string emitted by `json.dumps`
with `ensure_ascii=False`. -/
def jsonEscapeChar (c : Char) : List Char :=
  if c = '"' then ['\\', '"']
  else if c = '\\' then ['\\', '\\']
  else if c = '\n' then ['\\', 'n']
  else if c = '\t' then ['\\', 't']
  else if c = '\r' then ['\\', 'r']
  else if c = '\x08' then ['\\', 'b']
  else if c = '\x0c' then ['\\', 'f']
  else if c.toNat < 32 then
    let hexDigit := fun (n : Nat) =>
      if n < 10 then Char.ofNat ('0'.toNat + n) else Char.ofNat ('a'.toNat + n - 10)
    ['\\', 'u', '0', '0', hexDigit (c.toNat / 16), hexDigit (c.toNat % 16)]
  else [c]

/-- Escaping of a whole string for `json.dumps`. -/
def jsonEscape (s : List Char) : List Char :=
  s.flatMap jsonEscapeChar

/-- Serialization of a value by `json.dumps(..., ensure_ascii=False)` with
the default separators (numbers are emitted with their raw parsed text; the
program never serializes a number it did not itself parse). -/
def jDumpV : JValue → List Char
  | JValue.null => ['n', 'u', 'l', 'l']
  | JValue.bool true => ['t', 'r', 'u', 'e']
  | JValue.bool false => ['f', 'a', 'l', 's', 'e']
  | JValue.num s => s.toList
  | JValue.str s => '"' :: jsonEscape s.toList ++ ['"']
  | JValue.arr xs =>
    '[' :: List.intercalate [',', ' '] (xs.attach.map (fun x => jDumpV x.1)) ++ [']']
  | JValue.obj fields =>
    '\x7b' ::
      List.intercalate [',', ' ']
        (fields.attach.map (fun p =>
          '"' :: jsonEscape p.1.1.toList ++ ['"', ':', ' '] ++ jDumpV p.1.2)) ++
      ['\x7d']
termination_by v => sizeOf v
decreasing_by
  · have h := List.sizeOf_lt_of_mem x.2
    simp_wf
    omega
  · have h := List.sizeOf_lt_of_mem p.2
    have h2 : sizeOf p.1.2 < sizeOf p.1 := by
      rcases p with ⟨⟨a, b⟩, hp⟩
      simp
    simp_wf
    omega

/-- Serialization entry point. -/
def jDump (v : JValue) : String := String.mk (jDumpV v)

/-- Output of `json.dumps(\x7b"error": msg\x7d, ensure_ascii=False)`, the
shape produced on every soft failure of `_execute_function`. -/
def dumps_error (msg : String) : String :=
  String.mk ('\x7b' :: '"' :: "error".toList ++ ['"', ':', ' ', '"'] ++
    jsonEscape msg.toList ++ ['"', '\x7d'])

/-- Python truthiness of a parsed JSON value (`if function_call:`); a number
is falsy exactly when its digits are all zero (`NaN` and `Infinity` carry no
digit and are truthy). -/
def jTruthy : JValue → Bool
  | JValue.null => false
  | JValue.bool b => b
  | JValue.num s =>
    !(s.toList.any Char.isDigit && s.toList.all (fun c => !c.isDigit || c = '0'))
  | JValue.str s => !s.isEmpty
  | JValue.arr xs => !xs.isEmpty
  | JValue.obj fields => !fields.isEmpty

/-- Simulated weather lookup `get_weather` of `src/main.py`; the returned
strings are the exact `json.dumps(..., ensure_ascii=False)` output of the
two table entries and of the fallback error payload. -/
def get_weather (city : String) : String :=
  let city_key := String.mk (pyLower city.toList)
  if city_key = "beijing" then
    jDump (JValue.obj
      [("location", JValue.str "Beijing"),
       ("temperature", JValue.obj
         [("current", JValue.num "32"), ("low", JValue.num "26"),
          ("high", JValue.num "35")]),
       ("rain_probability", JValue.num "10"),
       ("humidity", JValue.num "40")])
  else if city_key = "shenzhen" then
    jDump (JValue.obj
      [("location", JValue.str "Shenzhen"),
       ("temperature", JValue.obj
         [("current", JValue.num "28"), ("low", JValue.num "24"),
          ("high", JValue.num "31")]),
       ("rain_probability", JValue.num "90"),
       ("humidity", JValue.num "85")])
  else jDump (JValue.obj [("error", JValue.str "Weather Unavailable")])

/-- Result of the Python call `get_weather(**func_args)` together with the
number of times the registered weather callable was actually entered
(argument-binding failures happen before entry, `city.lower()` failures
inside the body).  Exception texts are abstracted to short English
descriptions; the program only forwards them into error payloads. -/
def bind_get_weather (args : JValue) : Except String String × Nat :=
  match args with
  | JValue.obj fields =>
    if fields.any (fun p => p.1 ≠ "city") then
      (Except.error "TypeError: get_weather got an unexpected keyword argument", 0)
    else
      match pyGet fields "city" with
      | some (JValue.str s) => (Except.ok (get_weather s), 1)
      | some _ => (Except.error "AttributeError: object has no attribute lower", 1)
      | none =>
        (Except.error "TypeError: get_weather missing required argument city", 0)
  | _ => (Except.error "TypeError: argument after ** must be a mapping", 0)

/-- Python `str(x)` of the value found under the `"name"` key, as
interpolated into the unknown-function payload. -/
def pyStrOfName : Option JValue → String
  | none => "None"
  | some JValue.null => "None"
  | some (JValue.bool true) => "True"
  | some (JValue.bool false) => "False"
  | some (JValue.num s) => s
  | some (JValue.str s) => s
  | some v => jDump v

/-- Embedding of `FunctionCallingAgent._execute_function`.  The `Except`
error is an exception escaping the method: the `function_call.get` calls
and the registry membership test sit outside the `try` block, so a
non-dict argument or an unhashable `"name"` value raises; everything inside
the `try` is converted to an error payload.  The `Nat` counts entries into
the registered weather callable. -/
def execute_function (function_call : JValue) : Except String String × Nat :=
  match function_call with
  | JValue.obj fields =>
    let func_name := pyGet fields "name"
    let func_args := (pyGet fields "arguments").getD (JValue.obj [])
    match func_name with
    | some (JValue.obj _) => (Except.error "TypeError: unhashable type", 0)
    | some (JValue.arr _) => (Except.error "TypeError: unhashable type", 0)
    | some (JValue.str n) =>
      if n = "get_weather" then
        match bind_get_weather func_args with
        | (Except.ok result, w) => (Except.ok result, w)
        | (Except.error e, w) => (Except.ok (dumps_error e), w)
      else (Except.ok (dumps_error ("未知函数: " ++ n)), 0)
    | other => (Except.ok (dumps_error ("未知函数: " ++ pyStrOfName other)), 0)
  | _ => (Except.error "AttributeError: object has no attribute get", 0)

/-- The registry `execute(name, arguments)` operation of the spec: running
`_execute_function` on a call dict holding a string name and an argument
mapping. -/
def execute (name : String) (arguments : List (String × JValue)) :
    Except String String × Nat :=
  execute_function (JValue.obj
    [("name", JValue.str name), ("arguments", JValue.obj arguments)])

/-- The marker scanned for by `_parse_function_call`. -/
def fcMarker : List Char := "FUNCTION_CALL:".toList

/-- Embedding of `FunctionCallingAgent._parse_function_call`:
`"FUNCTION_CALL:" in response`, then
`response.split("FUNCTION_CALL:")[1].strip().split('\n')[0].strip()` fed to
`json.loads`, any exception inside the `try` giving `None`. -/
def parse_function_call (response : String) : Option JValue :=
  let r := response.toList
  if (afterFirst fcMarker r).isSome then
    match (pySplit fcMarker r).get? 1 with
    | none => none
    | some seg =>
      let s1 := pyStrip seg
      let s2 := pyStrip ((pySplit ['\n'] s1).headD [])
      jsonLoads s2
  else none

/-- One chat message, `\x7b"role": ..., "content": ...\x7d`. -/
structure Message where
  role : String
  content : String
deriving Repr, DecidableEq

/-- The two backend providers. -/
inductive Provider where
  | deepseek : Provider
  | qwen : Provider
deriving Repr, DecidableEq

/-- The other provider, the failover target. -/
def Provider.other : Provider → Provider
  | Provider.deepseek => Provider.qwen
  | Provider.qwen => Provider.deepseek

/-- The string tag `current_api` uses for a provider. -/
def apiTag : Provider → String
  | Provider.deepseek => "deepseek"
  | Provider.qwen => "qwen"

/-- Mutable state of `LLMAdapter`: the selection tag and the two
availability flags (the config and clients are immutable and carried by
the oracles). -/
structure AdapterState where
  current_api : String
  deepseek_available : Bool
  qwen_available : Bool
deriving Repr, DecidableEq

/-- Availability flag of one provider. -/
def provAvailable (st : AdapterState) : Provider → Bool
  | Provider.deepseek => st.deepseek_available
  | Provider.qwen => st.qwen_available

/-- State with one provider's availability flag cleared. -/
def markUnavailable (st : AdapterState) : Provider → AdapterState
  | Provider.deepseek => { st with deepseek_available := false }
  | Provider.qwen => { st with qwen_available := false }

/-- Outcome oracle for one adapter call: what `_call_deepseek_api` and
`_call_qwen_api` would each return (or raise) if invoked now. -/
structure Outcomes where
  deepseek : Except String String
  qwen : Except String String
deriving Repr

/-- Embedding of `LLMAdapter.__init__`: the DeepSeek client is available
when its key is non-empty (Python truthiness of a string) and the SDK
client construction did not raise (oracle `client_init_ok`); Qwen is
available when its key is non-empty.  `current_api` starts as `"auto"` and
is immediately resolved: prefer DeepSeek, else Qwen, else raise. -/
def initAdapter (deepseek_api_key : String) (client_init_ok : Bool)
    (qwen_api_key : String) : Except String AdapterState :=
  let deepseek_available := (!deepseek_api_key.isEmpty) && client_init_ok
  let qwen_available := !qwen_api_key.isEmpty
  if deepseek_available then
    Except.ok ⟨"deepseek", deepseek_available, qwen_available⟩
  else if qwen_available then
    Except.ok ⟨"qwen", deepseek_available, qwen_available⟩
  else Except.error "没有可用的LLM API"

/-- Embedding of `LLMAdapter.set_api`. -/
def set_api (st : AdapterState) (api_name : String) : Bool × AdapterState :=
  if api_name = "deepseek" ∧ st.deepseek_available = true then
    (true, { st with current_api := "deepseek" })
  else if api_name = "qwen" ∧ st.qwen_available = true then
    (true, { st with current_api := "qwen" })
  else if api_name = "auto" then
    if st.deepseek_available = true then (true, { st with current_api := "deepseek" })
    else if st.qwen_available = true then (true, { st with current_api := "qwen" })
    else (false, st)
  else (false, st)

/-- The rate-limit heuristic of `call_llm`: the lowercased exception text
contains one of the four signatures. -/
def is_rate_limit_error (e : String) : Bool :=
  let m := pyLower e.toList
  (afterFirst "rate limit".toList m).isSome ||
  (afterFirst "quota".toList m).isSome ||
  (afterFirst "exceeded".toList m).isSome ||
  (afterFirst "429".toList m).isSome

/-- Embedding of `LLMAdapter.call_llm`.  Besides the result and the new
state it returns the list of providers whose API-call method was invoked,
in order (the network-attempt log).  On a rate-limited failure of the
active provider the flag is cleared and, when the other provider is
available, the selection switches and the other provider's outcome is
returned as-is (a failure of the fallback call propagates unretried). -/
def call_llm (st : AdapterState) (_messages : List Message) (o : Outcomes) :
    Except String String × AdapterState × List Provider :=
  if st.current_api = "deepseek" ∧ st.deepseek_available = true then
    match o.deepseek with
    | Except.ok text => (Except.ok text, st, [Provider.deepseek])
    | Except.error e =>
      if is_rate_limit_error e then
        let st1 : AdapterState := { st with deepseek_available := false }
        if st1.qwen_available = true then
          (o.qwen, { st1 with current_api := "qwen" },
           [Provider.deepseek, Provider.qwen])
        else (Except.error e, st1, [Provider.deepseek])
      else (Except.error e, st, [Provider.deepseek])
  else if st.current_api = "qwen" ∧ st.qwen_available = true then
    match o.qwen with
    | Except.ok text => (Except.ok text, st, [Provider.qwen])
    | Except.error e =>
      if is_rate_limit_error e then
        let st1 : AdapterState := { st with qwen_available := false }
        if st1.deepseek_available = true then
          (o.deepseek, { st1 with current_api := "deepseek" },
           [Provider.qwen, Provider.deepseek])
        else (Except.error e, st1, [Provider.qwen])
      else (Except.error e, st, [Provider.qwen])
  else (Except.error "当前没有可用的LLM API", st, [])

/-- Trace of one provider-client call: the result (or raised exception),
the number of attempts sent to the backend, and the backoff sleeps
performed between attempts, in order. -/
structure RetryTrace where
  result : Except String String
  attempts : Nat
  sleeps : List Nat
deriving Repr

/-- Body of the retry loop shared by `_call_deepseek_api` and
`_call_qwen_api`: `for attempt in range(max_retries)` with `remaining`
iterations left, the current 0-based `attempt` index, and the outcome of
each attempt given by `outcomes`.  On failure the loop sleeps
`2 ** attempt` and continues while `attempt < max_retries - 1` (Python
integer comparison), otherwise re-raises; falling off the loop raises the
generic exhausted-retries exception. -/
def retry_loop (outcomes : Nat → Except String String) (max_retries : Int)
    (exhausted_msg : String) (attempt : Nat) : Nat → RetryTrace
  | 0 => ⟨Except.error exhausted_msg, 0, []⟩
  | remaining + 1 =>
    match outcomes attempt with
    | Except.ok s => ⟨Except.ok s, 1, []⟩
    | Except.error e =>
      if (attempt : Int) < max_retries - 1 then
        let t := retry_loop outcomes max_retries exhausted_msg (attempt + 1) remaining
        ⟨t.result, t.attempts + 1, 2 ^ attempt :: t.sleeps⟩
      else ⟨Except.error e, 1, []⟩

/-- Embedding of the `complete` operation of a provider client
(`_call_deepseek_api` / `_call_qwen_api`): `range(max_retries)` iterates
`max(max_retries, 0)` times. -/
def call_api_with_retries (outcomes : Nat → Except String String)
    (max_retries : Int) (exhausted_msg : String) : RetryTrace :=
  retry_loop outcomes max_retries exhausted_msg 0 max_retries.toNat

/-- The function catalog text built by `_build_function_calling_prompt`
from `FUNCTION_DESCRIPTIONS` (one registered function). -/
def function_catalog_text : String :=
  "可用函数:\n- get_weather: 获取指定城市的天气信息，包括温度、降雨概率和湿度\n参数: " ++
  jDump (JValue.obj
    [("type", JValue.str "object"),
     ("properties", JValue.obj
       [("city", JValue.obj
         [("type", JValue.str "string"),
          ("description", JValue.str "城市名称，如beijing或shenzhen")])]),
     ("required", JValue.arr [JValue.str "city"])]) ++ "\n"

/-- Embedding of `LLMAdapter._build_function_calling_prompt`. -/
def build_function_calling_prompt (user_query : String) : String :=
  function_catalog_text ++ "\n\n用户请求: " ++ user_query ++
  "\n\n请分析用户需求，如果需要调用函数，请按以下格式回复：\nFUNCTION_CALL: \x7b\"name\": \"函数名\", \"arguments\": \x7b\"参数名\": \"参数值\"\x7d\x7d\n\n如果不需要调用函数，请直接回答用户问题。\n如果已经获得函数结果，请根据结果给出最终建议。\n\n请一步步思考并回答。"

/-- The second prompt built by `process_query` after a function call. -/
def build_follow_up_prompt (user_query : String) (function_call : JValue)
    (function_result : String) : String :=
  "之前的对话:\n用户请求: " ++ user_query ++ "\n你决定调用函数: " ++
  jDump function_call ++ "\n函数返回结果: " ++ function_result ++
  "\n\n现在请根据函数返回的结果，给出最终的建议回答。请用简洁的语言回答，直接给出有用的信息。"

/-- Observable trace of one `process_query` run: the returned text, the
adapter state afterwards, the number of `call_llm` invocations, and the
number of entries into the registered weather callable. -/
structure QueryTrace where
  answer : String
  finalState : AdapterState
  llmCalls : Nat
  weatherCalls : Nat
deriving Repr, DecidableEq

/-- Body of `FunctionCallingAgent.process_query` up to (but not including)
the top-level `try/except`: an `Except.error` is an exception reaching
that handler.  The two adapter calls take their outcome oracles `o1` and
`o2`; state and counters are threaded through every path. -/
def process_query_body (st : AdapterState) (o1 o2 : Outcomes)
    (user_query : String) : Except String String × AdapterState × Nat × Nat :=
  let initial_prompt := build_function_calling_prompt user_query
  match call_llm st [⟨"user", initial_prompt⟩] o1 with
  | (Except.error e, st1, _) => (Except.error e, st1, 1, 0)
  | (Except.ok response, st1, _) =>
    match parse_function_call response with
    | some fc =>
      if jTruthy fc then
        match execute_function fc with
        | (Except.error e, w) => (Except.error e, st1, 1, w)
        | (Except.ok function_result, w) =>
          let follow_up := build_follow_up_prompt user_query fc function_result
          match call_llm st1 [⟨"user", follow_up⟩] o2 with
          | (Except.error e, st2, _) => (Except.error e, st2, 2, w)
          | (Except.ok final_response, st2, _) =>
            (Except.ok final_response, st2, 2, w)
      else (Except.ok response, st1, 1, 0)
    | none => (Except.ok response, st1, 1, 0)

/-- Embedding of `FunctionCallingAgent.process_query`: the body wrapped in
the top-level `try/except` that converts any exception into the apology
string. -/
def process_query (st : AdapterState) (o1 o2 : Outcomes)
    (user_query : String) : QueryTrace :=
  match process_query_body st o1 o2 user_query with
  | (Except.ok answer, st1, calls, w) => ⟨answer, st1, calls, w⟩
  | (Except.error e, st1, calls, w) =>
    ⟨"抱歉，处理请求时出错: " ++ e, st1, calls, w⟩

/-- The payload actually handed to `json.loads` by `_parse_function_call`
when the marker occurs, described without `pySplit`: the text between the
first marker occurrence and the next one (or the end), stripped, truncated
at its first line break, and stripped again. -/
def extract_payload (r : List Char) : Option (List Char) :=
  (afterFirst fcMarker r).map
    (fun tail => pyStrip (beforeFirst ['\n'] (pyStrip (beforeFirst fcMarker tail))))

/-- Parser that follows the words of the specification sentence for the
Function-Call Parser: the payload is everything after the marker up to the
first line break, and it must be valid structured data carrying a name and
an argument mapping, else no call is detected. -/
def parse_function_call_claimed (response : String) : Option JValue :=
  let r := response.toList
  match afterFirst fcMarker r with
  | none => none
  | some tail =>
    match jsonLoads (beforeFirst ['\n'] tail) with
    | some (JValue.obj fields) =>
      match pyGet fields "name", pyGet fields "arguments" with
      | some (JValue.str _), some (JValue.obj _) => some (JValue.obj fields)
      | _, _ => none
    | _ => none

/-- The selection invariant of the adapter: the selection tag refers to a
provider whose availability flag is set, except in the terminal state
where no provider is available. -/
def SelectionInv (st : AdapterState) : Prop :=
  (st.current_api = "deepseek" ∧ st.deepseek_available = true) ∨
  (st.current_api = "qwen" ∧ st.qwen_available = true) ∨
  (st.deepseek_available = false ∧ st.qwen_available = false)

/-- Adapter states reachable from a successful construction via arbitrary
`set_api` and `call_llm` steps with arbitrary call outcomes. -/
inductive ReachableState : AdapterState → Prop where
  | boot : ∀ (dk : String) (ok : Bool) (qk : String) (st : AdapterState),
      initAdapter dk ok qk = Except.ok st → ReachableState st
  | select : ∀ (st : AdapterState) (name : String), ReachableState st →
      ReachableState (set_api st name).2
  | call : ∀ (st : AdapterState) (msgs : List Message) (o : Outcomes),
      ReachableState st → ReachableState (call_llm st msgs o).2.1

/-- The outcome oracle entry belonging to one provider. -/
def outcomeFor (o : Outcomes) : Provider → Except String String
  | Provider.deepseek => o.deepseek
  | Provider.qwen => o.qwen

/-- The first stub reply of the end-to-end Shenzhen scenario: a
FUNCTION_CALL line requesting `get_weather` for shenzhen. -/
def shenzhen_stub_first : Outcomes :=
  ⟨Except.ok
    "FUNCTION_CALL: \x7b\"name\": \"get_weather\", \"arguments\": \x7b\"city\": \"shenzhen\"\x7d\x7d",
   Except.error "stub not called"⟩

/-- The second stub reply of the end-to-end Shenzhen scenario: prose. -/
def shenzhen_stub_second : Outcomes :=
  ⟨Except.ok "深圳今天有雨，出门记得带伞。", Except.error "stub not called"⟩

theorem afterFirst_none_before (sep : List Char) :
    ∀ s : List Char, afterFirst sep s = none → beforeFirst sep s = s := by
  intro s
  induction s with
  | nil => intro _; rfl
  | cons c rest ih =>
    intro h
    unfold afterFirst at h
    unfold beforeFirst
    by_cases hp : sep.isPrefixOf (c :: rest) = true
    · simp [hp] at h
    · simp only [hp] at h ⊢
      simp only [Bool.false_eq_true, if_false] at h ⊢
      rw [ih h]

theorem pySplitGo_ne_nil (sep : List Char) :
    ∀ (f : Nat) (s : List Char), pySplitGo sep f s ≠ [] := by
  intro f
  induction f with
  | zero => intro s; simp [pySplitGo]
  | succ f ih =>
    intro s
    cases s with
    | nil => simp [pySplitGo]
    | cons c rest =>
      unfold pySplitGo
      by_cases hp : sep.isPrefixOf (c :: rest) = true
      · simp [hp]
      · simp only [hp, Bool.false_eq_true, if_false]
        cases h : pySplitGo sep f rest with
        | nil => simp
        | cons h t => simp

theorem pySplitGo_headD (sep : List Char) :
    ∀ (f : Nat) (s : List Char), s.length ≤ f →
      (pySplitGo sep f s).headD [] = beforeFirst sep s := by
  intro f
  induction f with
  | zero =>
    intro s hs
    have h0 : s = [] := List.length_eq_zero.mp (Nat.le_zero.mp hs)
    subst h0
    rfl
  | succ f ih =>
    intro s hs
    cases s with
    | nil => rfl
    | cons c rest =>
      unfold pySplitGo beforeFirst
      by_cases hp : sep.isPrefixOf (c :: rest) = true
      · simp [hp]
      · simp only [hp, Bool.false_eq_true, if_false]
        have hr : rest.length ≤ f := by
          simpa using Nat.succ_le_succ_iff.mp hs
        have hne := pySplitGo_ne_nil sep f rest
        cases h : pySplitGo sep f rest with
        | nil => exact absurd h hne
        | cons hd tl =>
          have := ih rest hr
          rw [h] at this
          simp only [List.headD_cons] at this
          simp [this]

theorem pySplitGo_get1 (sep : List Char) (hsep : sep ≠ []) :
    ∀ (f : Nat) (s : List Char), s.length ≤ f →
      (pySplitGo sep f s).get? 1 = (afterFirst sep s).map (beforeFirst sep) := by
  intro f
  induction f with
  | zero =>
    intro s hs
    have h0 : s = [] := List.length_eq_zero.mp (Nat.le_zero.mp hs)
    subst h0
    rfl
  | succ f ih =>
    intro s hs
    cases s with
    | nil => rfl
    | cons c rest =>
      unfold pySplitGo afterFirst
      by_cases hp : sep.isPrefixOf (c :: rest) = true
      · simp only [hp, if_true]
        have hlen : 0 < sep.length := List.length_pos.mpr hsep
        have hr : (List.drop sep.length (c :: rest)).length ≤ f := by
          have hs1 : rest.length + 1 ≤ f + 1 := by simpa using hs
          simp only [List.length_drop, List.length_cons]
          omega
        have hhead := pySplitGo_headD sep f (List.drop sep.length (c :: rest)) hr
        have hne := pySplitGo_ne_nil sep f (List.drop sep.length (c :: rest))
        cases h : pySplitGo sep f (List.drop sep.length (c :: rest)) with
        | nil => exact absurd h hne
        | cons hd tl =>
          rw [h] at hhead
          simp only [List.headD_cons] at hhead
          simp [hhead]
      · simp only [hp, Bool.false_eq_true, if_false]
        have hr : rest.length ≤ f := by
          simpa using Nat.succ_le_succ_iff.mp hs
        have hrec := ih rest hr
        cases h : pySplitGo sep f rest with
        | nil => exact absurd h (pySplitGo_ne_nil sep f rest)
        | cons hd tl =>
          rw [h] at hrec
          simpa using hrec

theorem pySplit_get1 (sep s : List Char) (hsep : sep ≠ []) :
    (pySplit sep s).get? 1 = (afterFirst sep s).map (beforeFirst sep) :=
  pySplitGo_get1 sep hsep s.length s le_rfl

theorem pySplit_headD (sep s : List Char) :
    (pySplit sep s).headD [] = beforeFirst sep s :=
  pySplitGo_headD sep s.length s le_rfl

/-- Claim C3, counterexample.  On the response `"FUNCTION_CALL:\n\x7b\x7d"`
the claim predicts no detected call twice over: the text after the marker
up to the first line break is empty (hence not valid structured data), and
the object carries neither a name nor an argument mapping.  The code
nevertheless strips the leading newline before splitting on line breaks
and returns the parsed empty object without checking any field. -/
theorem parse_function_call_claim_counterexample :
    parse_function_call "FUNCTION_CALL:\n\x7b\x7d" = some (JValue.obj []) ∧
    parse_function_call_claimed "FUNCTION_CALL:\n\x7b\x7d" = none :=
  ⟨rfl, rfl⟩

/-- Claim C3 (amended): the parser triggers only if the literal marker
`FUNCTION_CALL:` appears in the text; when it triggers, the payload is the
text between the first marker occurrence and the next one (or the end of
the text), stripped of surrounding whitespace, truncated at its first line
break and stripped again — text before the marker is discarded and a
payload on the line after the marker is still parsed; the payload must be
syntactically valid JSON, but any JSON value is accepted (no name or
argument fields are required); on JSON parse failure the parser returns
no call detected rather than failing the query. -/
theorem parse_function_call_amended :
    (∀ response : String, afterFirst fcMarker response.toList = none →
       parse_function_call response = none) ∧
    (∀ (response : String) (payload : List Char),
       extract_payload response.toList = some payload →
       parse_function_call response = jsonLoads payload) ∧
    (∀ (response : String) (payload : List Char),
       extract_payload response.toList = some payload → jsonLoads payload = none →
       parse_function_call response = none) := by
  have key : ∀ (response : String) (payload : List Char),
      extract_payload response.toList = some payload →
      parse_function_call response = jsonLoads payload := by
    intro response payload h
    unfold extract_payload at h
    rcases Option.map_eq_some'.mp h with ⟨tail, htail, hpayload⟩
    unfold parse_function_call
    simp only [htail, Option.isSome_some, if_true,
      pySplit_get1 fcMarker response.toList (by decide), Option.map_some',
      pySplit_headD]
    rw [hpayload]
  refine ⟨?_, key, ?_⟩
  · intro response h
    unfold parse_function_call
    simp only [h, Option.isSome_none, Bool.false_eq_true, if_false]
  · intro response payload h hnone
    rw [key response payload h, hnone]

theorem parse_function_call_amended_witness :
    parse_function_call
        "hi FUNCTION_CALL: \x7b\"name\": \"f\", \"arguments\": \x7b\x7d\x7d\nrest" =
      jsonLoads "\x7b\"name\": \"f\", \"arguments\": \x7b\x7d\x7d".toList :=
  parse_function_call_amended.2.1 _ _ rfl

/-- Claim C6: whenever the selection does not refer to an available
provider — in particular whenever both providers are unavailable, or the
selection tag names neither provider — `call_llm` raises the
no-provider-available exception, and no provider API call is attempted. -/
theorem call_llm_no_provider (st : AdapterState) (msgs : List Message)
    (o : Outcomes)
    (h1 : ¬(st.current_api = "deepseek" ∧ st.deepseek_available = true))
    (h2 : ¬(st.current_api = "qwen" ∧ st.qwen_available = true)) :
    call_llm st msgs o = (Except.error "当前没有可用的LLM API", st, []) := by
  unfold call_llm
  rw [if_neg h1, if_neg h2]

theorem call_llm_no_provider_witness :
    call_llm ⟨"deepseek", false, false⟩ [] ⟨Except.ok "a", Except.ok "b"⟩ =
      (Except.error "当前没有可用的LLM API", ⟨"deepseek", false, false⟩, []) :=
  call_llm_no_provider ⟨"deepseek", false, false⟩ [] ⟨Except.ok "a", Except.ok "b"⟩
    (by simp) (by simp)

/-- Claim C10: with `max_retries` zero or negative the retry loop of a
provider client performs no attempt and no backoff sleep, and the generic
exhausted-retries exception of the post-loop branch is raised. -/
theorem retry_zero_or_negative (outcomes : Nat → Except String String)
    (m : Int) (exhausted_msg : String) (hm : m ≤ 0) :
    call_api_with_retries outcomes m exhausted_msg =
      ⟨Except.error exhausted_msg, 0, []⟩ := by
  unfold call_api_with_retries
  have h : m.toNat = 0 := by omega
  rw [h]
  rfl

theorem retry_zero_or_negative_witness :
    call_api_with_retries (fun _ => Except.error "boom") (-3) "千问API重试次数用尽" =
      ⟨Except.error "千问API重试次数用尽", 0, []⟩ :=
  retry_zero_or_negative (fun _ => Except.error "boom") (-3) "千问API重试次数用尽"
    (by norm_num)

theorem retry_loop_all_fail (outcomes : Nat → Except String String)
    (err : Nat → String) (m : Int) (exhausted_msg : String)
    (hfail : ∀ i, outcomes i = Except.error (err i)) :
    ∀ (r a : Nat), 1 ≤ r → (a : Int) + r = m →
      retry_loop outcomes m exhausted_msg a r =
        ⟨Except.error (err (a + r - 1)), r,
         (List.range' a (r - 1)).map (fun i => 2 ^ i)⟩ := by
  intro r
  induction r with
  | zero => intro a h1 _; omega
  | succ r' ih =>
    intro a _ hsum
    unfold retry_loop
    rw [hfail a]
    dsimp only
    by_cases hcond : (a : Int) < m - 1
    · rw [if_pos hcond]
      have hr' : 1 ≤ r' := by
        by_contra hc
        have h0 : r' = 0 := by omega
        subst h0
        push_cast at hsum
        omega
      have hrec := ih (a + 1) hr' (by push_cast at hsum ⊢; omega)
      rw [hrec]
      obtain ⟨k, rfl⟩ : ∃ k, r' = k + 1 := ⟨r' - 1, by omega⟩
      have hidx : a + 1 + (k + 1) - 1 = a + (k + 1 + 1) - 1 := by omega
      simp only [RetryTrace.mk.injEq, hidx]
      refine ⟨by trivial, by trivial, ?_⟩
      have h1 : k + 1 - 1 = k := by omega
      have h2 : k + 1 + 1 - 1 = k + 1 := by omega
      rw [h1, h2, List.range'_succ]
      simp
    · rw [if_neg hcond]
      have hr0 : r' = 0 := by
        push_cast at hsum
        omega
      subst hr0
      simp

/-- Claim C2: a provider client whose `max_retries` is at least 1, run
against a backend failing on every attempt, performs exactly `max_retries`
attempts, sleeps `2 ^ attempt` between consecutive attempts (0-based, no
sleep after the final attempt), and fails by propagating the last
underlying failure — the spec's `ExhaustedRetries` is realised as that
re-raised last failure.  In general at most `max_retries` attempts are
performed. -/
theorem provider_retry_exhaustion (outcomes : Nat → Except String String)
    (err : Nat → String) (m : Int) (exhausted_msg : String)
    (hm : 1 ≤ m) (hfail : ∀ i, outcomes i = Except.error (err i)) :
    (call_api_with_retries outcomes m exhausted_msg =
      ⟨Except.error (err (m.toNat - 1)), m.toNat,
       (List.range (m.toNat - 1)).map (fun i => 2 ^ i)⟩) ∧
    (∀ outcomes2 : Nat → Except String String,
       (call_api_with_retries outcomes2 m exhausted_msg).attempts ≤ m.toNat) := by
  have attempts_le : ∀ (o2 : Nat → Except String String) (r a : Nat),
      (retry_loop o2 m exhausted_msg a r).attempts ≤ r := by
    intro o2 r
    induction r with
    | zero => intro a; simp [retry_loop]
    | succ r' ih =>
      intro a
      unfold retry_loop
      cases o2 a with
      | ok s => simp
      | error e =>
        dsimp only
        by_cases hcond : (a : Int) < m - 1
        · rw [if_pos hcond]
          have := ih (a + 1)
          dsimp only
          omega
        · rw [if_neg hcond]
          dsimp only
          omega
  constructor
  · unfold call_api_with_retries
    have h1 : 1 ≤ m.toNat := by omega
    have h2 : ((0 : Nat) : Int) + m.toNat = m := by
      push_cast
      omega
    have h := retry_loop_all_fail outcomes err m exhausted_msg hfail m.toNat 0 h1 h2
    rw [h]
    simp [List.range_eq_range']
  · intro o2
    exact attempts_le o2 m.toNat 0

theorem provider_retry_exhaustion_witness :
    call_api_with_retries (fun _ => Except.error "boom") 2 "DeepSeek重试次数用尽" =
      ⟨Except.error "boom", 2, [1]⟩ := by
  have h := (provider_retry_exhaustion (fun _ => Except.error "boom")
    (fun _ => "boom") 2 "DeepSeek重试次数用尽" (by norm_num) (fun _ => rfl)).1
  simpa using h

/-- Claim C8: adapter construction selects DeepSeek whenever it is
available (in particular whenever both providers are available), else Qwen
when available, and raises the no-provider exception when neither provider
ends up available. -/
theorem init_adapter_selection (dk : String) (client_ok : Bool) (qk : String) :
    (((!dk.isEmpty) && client_ok) = true →
       initAdapter dk client_ok qk = Except.ok ⟨"deepseek", true, !qk.isEmpty⟩) ∧
    (((!dk.isEmpty) && client_ok) = false → (!qk.isEmpty) = true →
       initAdapter dk client_ok qk = Except.ok ⟨"qwen", false, true⟩) ∧
    (((!dk.isEmpty) && client_ok) = false → (!qk.isEmpty) = false →
       initAdapter dk client_ok qk = Except.error "没有可用的LLM API") := by
  refine ⟨?_, ?_, ?_⟩
  · intro h1
    simp [initAdapter, h1]
  · intro h1 h2
    simp [initAdapter, h1, h2]
  · intro h1 h2
    simp [initAdapter, h1, h2]

theorem init_adapter_selection_witness :
    initAdapter " " true " " = Except.ok ⟨"deepseek", true, true⟩ :=
  (init_adapter_selection " " true " ").1 rfl

/-- Claim C1: when the selected, available provider's call fails with a
rate-limit signature, its availability flag is cleared; if the other
provider is available, the selection switches to it, exactly one retry is
made against it and its outcome is returned as-is (so a failure of the
fallback call propagates unretried, single-hop), and every later call
attempts only the new provider — the switch is permanent; if the other
provider is unavailable, the original failure is re-raised. -/
theorem adapter_rate_limit_failover (st : AdapterState) (msgs : List Message)
    (o : Outcomes) (p : Provider) (e : String)
    (hsel : st.current_api = apiTag p) (hav : provAvailable st p = true)
    (hout : outcomeFor o p = Except.error e)
    (hrl : is_rate_limit_error e = true) :
    provAvailable (call_llm st msgs o).2.1 p = false ∧
    (provAvailable st p.other = true →
       call_llm st msgs o =
         (outcomeFor o p.other,
          { markUnavailable st p with current_api := apiTag p.other },
          [p, p.other]) ∧
       ∀ (msgs2 : List Message) (o2 : Outcomes),
         (call_llm { markUnavailable st p with current_api := apiTag p.other }
             msgs2 o2).2.2 = [p.other] ∧
         ((call_llm { markUnavailable st p with current_api := apiTag p.other }
             msgs2 o2).2.1).current_api = apiTag p.other) ∧
    (provAvailable st p.other = false →
       call_llm st msgs o = (Except.error e, markUnavailable st p, [p])) := by
  cases p with
  | deepseek =>
    simp only [apiTag, provAvailable, outcomeFor, Provider.other,
      markUnavailable] at hsel hav hout ⊢
    by_cases hq : st.qwen_available = true
    · have hc : call_llm st msgs o =
          (o.qwen, ⟨"qwen", false, st.qwen_available⟩,
           [Provider.deepseek, Provider.qwen]) := by
        simp [call_llm, hsel, hav, hout, hrl, hq]
      refine ⟨by rw [hc], fun _ => ⟨by rw [hc], ?_⟩, fun hno => ?_⟩
      · intro msgs2 o2
        cases ho2 : o2.qwen with
        | ok s => simp [call_llm, hq, ho2]
        | error e2 =>
          by_cases hrl2 : is_rate_limit_error e2 = true <;>
            simp [call_llm, hq, ho2, hrl2]
      · rw [hno] at hq
        exact absurd hq (by decide)
    · have hqf : st.qwen_available = false := by
        simpa using hq
      have hc : call_llm st msgs o =
          (Except.error e, { st with deepseek_available := false },
           [Provider.deepseek]) := by
        simp [call_llm, hsel, hav, hout, hrl, hqf]
      refine ⟨by rw [hc], fun habs => absurd habs hq, fun _ => by rw [hc]⟩
  | qwen =>
    simp only [apiTag, provAvailable, outcomeFor, Provider.other,
      markUnavailable] at hsel hav hout ⊢
    by_cases hd : st.deepseek_available = true
    · have hc : call_llm st msgs o =
          (o.deepseek, ⟨"deepseek", st.deepseek_available, false⟩,
           [Provider.qwen, Provider.deepseek]) := by
        simp [call_llm, hsel, hav, hout, hrl, hd]
      refine ⟨by rw [hc], fun _ => ⟨by rw [hc], ?_⟩, fun hno => ?_⟩
      · intro msgs2 o2
        cases ho2 : o2.deepseek with
        | ok s => simp [call_llm, hd, ho2]
        | error e2 =>
          by_cases hrl2 : is_rate_limit_error e2 = true <;>
            simp [call_llm, hd, ho2, hrl2]
      · rw [hno] at hd
        exact absurd hd (by decide)
    · have hdf : st.deepseek_available = false := by
        simpa using hd
      have hc : call_llm st msgs o =
          (Except.error e, { st with qwen_available := false },
           [Provider.qwen]) := by
        simp [call_llm, hsel, hav, hout, hrl, hdf]
      refine ⟨by rw [hc], fun habs => absurd habs hd, fun _ => by rw [hc]⟩

theorem adapter_rate_limit_failover_witness :
    call_llm ⟨"deepseek", true, true⟩ []
        ⟨Except.error "Rate limit exceeded", Except.ok "fallback answer"⟩ =
      (Except.ok "fallback answer", ⟨"qwen", false, true⟩,
       [Provider.deepseek, Provider.qwen]) :=
  ((adapter_rate_limit_failover ⟨"deepseek", true, true⟩ []
      ⟨Except.error "Rate limit exceeded", Except.ok "fallback answer"⟩
      Provider.deepseek "Rate limit exceeded" rfl rfl rfl (by decide)).2.1
    rfl).1

/-- Claim C4: `process_query` never raises — for every adapter state,
every behaviour of the two adapter calls and every query, either the body
succeeds and its answer is returned, or the body raises and the exception
is converted into the apology string embedding the failure's
description. -/
theorem process_query_never_raises (st : AdapterState) (o1 o2 : Outcomes)
    (q : String) :
    (∃ s, (process_query_body st o1 o2 q).1 = Except.ok s ∧
          (process_query st o1 o2 q).answer = s) ∨
    (∃ e, (process_query_body st o1 o2 q).1 = Except.error e ∧
          (process_query st o1 o2 q).answer = "抱歉，处理请求时出错: " ++ e) := by
  rcases h : process_query_body st o1 o2 q with ⟨res, st1, c, w⟩
  cases res with
  | ok s => exact Or.inl ⟨s, rfl, by simp [process_query, h]⟩
  | error e => exact Or.inr ⟨e, rfl, by simp [process_query, h]⟩


/-- Claim C5: when the first adapter call succeeds and no function call is
detected in its reply, `process_query` returns that first reply verbatim
after exactly one adapter call and no function execution; and in the
end-to-end Shenzhen scenario — a stub provider first replying with a
`FUNCTION_CALL` for `get_weather(city=shenzhen)`, then with prose — the
registered weather function runs exactly once, a second adapter call is
made, and its reply is returned verbatim. -/
theorem process_query_round_trip :
    (∀ (st : AdapterState) (o1 o2 : Outcomes) (q resp : String)
       (st1 : AdapterState) (lg : List Provider),
       call_llm st [⟨"user", build_function_calling_prompt q⟩] o1 =
         (Except.ok resp, st1, lg) →
       parse_function_call resp = none →
       process_query st o1 o2 q = ⟨resp, st1, 1, 0⟩) ∧
    process_query ⟨"deepseek", true, true⟩ shenzhen_stub_first
        shenzhen_stub_second "Weather in Shenzhen?" =
      ⟨"深圳今天有雨，出门记得带伞。", ⟨"deepseek", true, true⟩, 2, 1⟩ := by
  constructor
  · intro st o1 o2 q resp st1 lg hcall hparse
    simp [process_query, process_query_body, hcall, hparse]
  · rfl

theorem process_query_round_trip_witness :
    process_query ⟨"deepseek", true, true⟩
        ⟨Except.ok "只是一句普通回答。", Except.error "stub not called"⟩
        ⟨Except.ok "unused", Except.error "stub not called"⟩ "你好" =
      ⟨"只是一句普通回答。", ⟨"deepseek", true, true⟩, 1, 0⟩ :=
  process_query_round_trip.1 ⟨"deepseek", true, true⟩
    ⟨Except.ok "只是一句普通回答。", Except.error "stub not called"⟩
    ⟨Except.ok "unused", Except.error "stub not called"⟩
    "你好" "只是一句普通回答。" ⟨"deepseek", true, true⟩ [Provider.deepseek]
    rfl rfl

/-- Claim C7: the registry execute operation fails softly — for every
string function name and argument mapping no exception escapes; an
unknown name yields the unknown-function error payload, and an exception
raised by (or while binding the arguments of) the weather callable yields
an error payload embedding its description; in particular
`execute("unknown_fn", \x7b\x7d)` returns an error payload. -/
theorem execute_fails_softly :
    (∀ (name : String) (args : List (String × JValue)),
       ∃ s, (execute name args).1 = Except.ok s) ∧
    (∀ (name : String) (args : List (String × JValue)),
       name ≠ "get_weather" →
       (execute name args).1 =
         Except.ok (dumps_error ("未知函数: " ++ name))) ∧
    (∀ (args : List (String × JValue)) (e : String) (w : Nat),
       bind_get_weather (JValue.obj args) = (Except.error e, w) →
       (execute "get_weather" args).1 = Except.ok (dumps_error e)) ∧
    (execute "unknown_fn" []).1 =
      Except.ok (dumps_error "未知函数: unknown_fn") := by
  have hname : ∀ (name : String) (args : List (String × JValue)),
      pyGet [("name", JValue.str name), ("arguments", JValue.obj args)] "name" =
        some (JValue.str name) := by
    intro name args
    rfl
  have hargs : ∀ (name : String) (args : List (String × JValue)),
      pyGet [("name", JValue.str name), ("arguments", JValue.obj args)]
        "arguments" = some (JValue.obj args) := by
    intro name args
    rfl
  refine ⟨?_, ?_, ?_, ?_⟩
  · intro name args
    unfold execute execute_function
    simp only [hname, hargs, Option.getD_some]
    by_cases hn : name = "get_weather"
    · rw [if_pos hn]
      rcases hb : bind_get_weather (JValue.obj args) with ⟨res, w⟩
      cases res with
      | ok r => exact ⟨r, rfl⟩
      | error e2 => exact ⟨dumps_error e2, rfl⟩
    · exact ⟨dumps_error ("未知函数: " ++ name), by rw [if_neg hn]⟩
  · intro name args hn
    unfold execute execute_function
    simp only [hname, hargs, Option.getD_some]
    rw [if_neg hn]
  · intro args e w hb
    unfold execute execute_function
    simp only [hname, hargs, Option.getD_some, if_true]
    rw [hb]
  · rfl

theorem execute_fails_softly_witness :
    (execute "nope" []).1 = Except.ok (dumps_error "未知函数: nope") ∧
    (execute "get_weather" []).1 =
      Except.ok
        (dumps_error "TypeError: get_weather missing required argument city") :=
  ⟨execute_fails_softly.2.1 "nope" [] (by decide),
   execute_fails_softly.2.2.1 []
     "TypeError: get_weather missing required argument city" 0 rfl⟩

theorem set_api_preserves_inv (st : AdapterState) (name : String)
    (h : SelectionInv st) : SelectionInv (set_api st name).2 := by
  unfold set_api
  split_ifs with h1 h2 h3 h4 h5
  · exact Or.inl ⟨rfl, h1.2⟩
  · exact Or.inr (Or.inl ⟨rfl, h2.2⟩)
  · exact Or.inl ⟨rfl, h4⟩
  · exact Or.inr (Or.inl ⟨rfl, h5⟩)
  · exact h
  · exact h

theorem call_llm_preserves_inv (st : AdapterState) (msgs : List Message)
    (o : Outcomes) (h : SelectionInv st) :
    SelectionInv (call_llm st msgs o).2.1 := by
  unfold call_llm
  split_ifs with h1 h2
  · split
    · exact h
    · split_ifs with hrl
      · dsimp only
        split_ifs with hq
        · exact Or.inr (Or.inl ⟨rfl, hq⟩)
        · exact Or.inr (Or.inr ⟨rfl, by simpa using hq⟩)
      · exact h
  · split
    · exact h
    · split_ifs with hrl
      · dsimp only
        split_ifs with hd
        · exact Or.inl ⟨rfl, hd⟩
        · exact Or.inr (Or.inr ⟨by simpa using hd, rfl⟩)
      · exact h
  · exact h

/-- Claim C9: in every adapter state reachable from construction through
arbitrary `set_api` and `call_llm` steps with arbitrary call outcomes, the
selection refers to a provider whose availability flag is true, except in
the terminal state where no provider is available. -/
theorem reachable_selection_invariant (st : AdapterState)
    (h : ReachableState st) : SelectionInv st := by
  induction h with
  | boot dk ok qk st hinit =>
    unfold initAdapter at hinit
    dsimp only at hinit
    split_ifs at hinit with h1 h2
    · cases hinit
      exact Or.inl ⟨rfl, h1⟩
    · cases hinit
      exact Or.inr (Or.inl ⟨rfl, h2⟩)
  | select st name _ ih => exact set_api_preserves_inv st name ih
  | call st msgs o _ ih => exact call_llm_preserves_inv st msgs o ih

theorem reachable_selection_invariant_witness :
    SelectionInv ⟨"deepseek", true, true⟩ :=
  reachable_selection_invariant ⟨"deepseek", true, true⟩
    (ReachableState.boot " " true " " ⟨"deepseek", true, true⟩ rfl)

end AgentDev
